import Mathlib

/-!
Verification development for the Mashreq-POC-V2 call-ended webhook pipeline
(src/api/webhook/call-ended.js).

The JavaScript module is shallowly embedded here:
* JSON payloads become the inductive type `JVal` (numbers are modelled as
  integers; the payloads of interest are parsed JSON, so `undefined` is
  represented by an absent key, i.e. `Option.none` from `jget`).
* JavaScript truthiness, `String()` coercion, `JSON.stringify`,
  `String.prototype.includes`, `toLowerCase` (ASCII, as all keywords are
  ASCII) and the two phone regexes are given as executable definitions.
* The webhook handler `module.exports` becomes `webhookHandler`; the only
  effectful calls (the Twilio `messages.create` call and a possible internal
  exception inside the `try` block) are supplied as explicit parameters
  (`TwilioOutcome`, `Option String`).  The handler result records the HTTP
  status, the JSON response body, whether `classifyTranscript` was invoked,
  whether `sendSMS` was invoked, and the list of gateway send attempts.
-/

namespace Mashreq

/-- A JSON-like dynamic value, as delivered to the webhook after JSON parsing.
Numbers are modelled as integers. -/
inductive JVal where
  | jnull
  | jbool (b : Bool)
  | jnum (n : Int)
  | jstr (s : String)
  | jarr (items : List JVal)
  | jobj (fields : List (String × JVal))
deriving Repr

/-- JavaScript truthiness for a parsed-JSON value. -/
def jsTruthy : JVal → Bool
  | .jnull => false
  | .jbool b => b
  | .jnum n => !(n == 0)
  | .jstr s => !(s == "")
  | .jarr _ => true
  | .jobj _ => true

/-- First field with the given key (JSON objects are assumed duplicate-free). -/
def lookupField : List (String × JVal) → String → Option JVal
  | [], _ => none
  | (k, v) :: rest, key => if k == key then some v else lookupField rest key

/-- Property access `obj.key`: `none` plays the role of `undefined`.
Property access on non-objects yields `undefined` (scalars have none of the
probed properties). -/
def jget : JVal → String → Option JVal
  | .jobj fs, k => lookupField fs k
  | _, _ => none

/-- Optional-chained access `obj.k1?.k2`. -/
def jget2 (v : JVal) (k1 k2 : String) : Option JVal :=
  match jget v k1 with
  | some w => jget w k2
  | none => none

/-- Does the character list start with the pattern? -/
def startsWithChars : List Char → List Char → Bool
  | _, [] => true
  | [], _ :: _ => false
  | c :: cs, p :: ps => c == p && startsWithChars cs ps

/-- Substring occurrence over character lists. -/
def hasInfixChars : List Char → List Char → Bool
  | [], pat => startsWithChars [] pat
  | c :: rest, pat => startsWithChars (c :: rest) pat || hasInfixChars rest pat

/-- JavaScript `haystack.includes(needle)`. -/
def jsIncludes (s sub : String) : Bool :=
  hasInfixChars s.data sub.data

/-- JavaScript `toLowerCase()`; the transcripts and keywords compared in the
source are ASCII, for which `Char.toLower` agrees with JavaScript. -/
def lowerString (s : String) : String :=
  String.mk (s.data.map Char.toLower)

-- ===========================================================================
-- SMS TEMPLATES (call-ended.js lines 16-61)
-- ===========================================================================

/-- The hardcoded template registry `SMS_TEMPLATES`. -/
def SMS_TEMPLATES : List (String × String) :=
  [ ("REWARDS_SMS", "Mashreq Bank: This confirms your rewards inquiry. Your current balance and transaction details were shared during the call. For questions, call us anytime. Thank you for banking with us."),
    ("TRANSACTION_SMS", "Mashreq Bank: Transaction Confirmation\nYour funds transfer inquiry has been addressed. \nStatus and reference details were shared during your call.\nIf the beneficiary has not received funds within the stated timeline, please contact us.\nThank you for banking with Mashreq."),
    ("COMPLAINT_SMS", "Mashreq Bank: This confirms the complaint status update shared during your call. Your case is being handled as per our service commitment. For further assistance, please call us. Thank you."),
    ("OUTBOUND_CONFIRMATION_SMS", "Mashreq Bank: This confirms the update shared during our call today. If you have any questions, please contact us. Thank you for being a valued customer."),
    ("REWARDS_TNC_SMS", "Mashreq Bank Rewards T&C Summary:\n• Earn points on qualifying transactions (posted within 48hrs)\n• Redeem for vouchers, cashback, or partner offers (min 500 points)\n• Points expire after 24 months from earning\n• Instant redemption via App/Web for select partners\n• No points on fees, cash withdrawals, or flagged transactions\n• Account must be active & KYC compliant\nFull T&C: mashreqbank.com/rewards-tnc"),
    ("TRANSACTION_REFERENCE_SMS", "Mashreq Bank: Transaction Reference\nYour transaction details and SWIFT reference were shared during your call.\nPlease retain this SMS for your records.\nFor status updates or assistance, contact Mashreq Bank.\nThank you."),
    ("REDEMPTION_SMS", "Mashreq Bank Rewards: Redemption Confirmation\nYour redemption request details were shared during the call.\nRedemption Rules:\n• Min 500 points required\n• Increments of 100 points\n• Instant redemption is final\nThank you for using Mashreq Rewards."),
    ("CALL_SUMMARY_SMS", "Mashreq Bank: Thank you for your call. A summary of your inquiry has been noted. For any further assistance, please contact us. We value your banking relationship.") ]

-- ===========================================================================
-- CLASSIFICATION KEYWORDS (call-ended.js lines 69-153)
-- ===========================================================================

/-- `TRIGGER_KEYWORDS.rewards_tnc`. -/
def TRIGGER_KEYWORDS_rewards_tnc : List String :=
  [ "send terms and conditions", "send the terms", "send me the terms",
    "send t&c", "send tnc", "send t and c",
    "terms and conditions by sms", "terms and conditions via sms",
    "terms by sms", "terms via sms",
    "t&c by sms", "t&c via sms", "tnc by sms", "tnc via sms" ]

/-- `TRIGGER_KEYWORDS.transaction_reference`. -/
def TRIGGER_KEYWORDS_transaction_reference : List String :=
  [ "send swift", "send the swift", "send reference number",
    "send the reference", "send transaction",
    "swift by sms", "swift via sms", "reference by sms", "reference via sms",
    "transaction details by sms", "transaction details via sms" ]

/-- `TRIGGER_KEYWORDS.redemption`. -/
def TRIGGER_KEYWORDS_redemption : List String :=
  [ "send redemption", "send me redemption", "send the redemption",
    "send me the redemption", "redemption rules",
    "redemption by sms", "redemption via sms",
    "redeem by sms", "redeem via sms", "rewards redemption", "how to redeem" ]

/-- `TRIGGER_KEYWORDS.complaint`. -/
def TRIGGER_KEYWORDS_complaint : List String :=
  [ "case reference", "complaint reference", "initiated a complaint",
    "raise a complaint", "raised a complaint", "complaint to investigate",
    "log a complaint", "logged a complaint",
    "complaint confirmation", "complaint status" ]

/-- `TRIGGER_KEYWORDS.summary`. -/
def TRIGGER_KEYWORDS_summary : List String :=
  [ "send summary via sms", "send me a summary", "send confirmation via sms",
    "send me confirmation", "send details via sms" ]

/-- `BLOCK_KEYWORDS` (lines 143-153). -/
def BLOCK_KEYWORDS : List String :=
  [ "unable to verify", "cannot proceed", "visit branch", "call again",
    "verification failed", "could not verify", "identity not confirmed",
    "please visit", "try again later" ]

/-- All trigger keywords, in the priority order the classifier scans them. -/
def ALL_TRIGGER_KEYWORDS : List String :=
  TRIGGER_KEYWORDS_rewards_tnc ++ TRIGGER_KEYWORDS_transaction_reference ++
  TRIGGER_KEYWORDS_redemption ++ TRIGGER_KEYWORDS_complaint ++
  TRIGGER_KEYWORDS_summary

-- ===========================================================================
-- TRANSCRIPT CLASSIFICATION (call-ended.js lines 165-257)
-- ===========================================================================

/-- Return type of `classifyTranscript`. -/
structure Classification where
  shouldSend : Bool
  smsType : Option String
  reason : String
deriving Repr, DecidableEq

/-- `classifyTranscript(transcript, callType)`.  The call type is a dynamic
value taken verbatim from the payload; the source compares it with
`callType === 'OUTBOUND'` (strict equality), which is modelled by the
pattern match on `.jstr "OUTBOUND"`.  Each `for` loop returning on the
first `includes` hit is `List.find?`. -/
def classifyTranscript (transcript : String) (callType : JVal) : Classification :=
  let transcriptLower := lowerString transcript
  match BLOCK_KEYWORDS.find? (fun k => jsIncludes transcriptLower k) with
  | some blockKeyword =>
      ⟨false, none, "Blocked: transcript contains \"" ++ blockKeyword ++ "\""⟩
  | none =>
  match TRIGGER_KEYWORDS_rewards_tnc.find? (fun k => jsIncludes transcriptLower k) with
  | some keyword =>
      ⟨true, some "REWARDS_TNC_SMS", "Matched T&C request keyword: \"" ++ keyword ++ "\""⟩
  | none =>
  match TRIGGER_KEYWORDS_transaction_reference.find? (fun k => jsIncludes transcriptLower k) with
  | some keyword =>
      ⟨true, some "TRANSACTION_REFERENCE_SMS", "Matched transaction reference keyword: \"" ++ keyword ++ "\""⟩
  | none =>
  match TRIGGER_KEYWORDS_redemption.find? (fun k => jsIncludes transcriptLower k) with
  | some keyword =>
      ⟨true, some "REDEMPTION_SMS", "Matched redemption keyword: \"" ++ keyword ++ "\""⟩
  | none =>
  match TRIGGER_KEYWORDS_complaint.find? (fun k => jsIncludes transcriptLower k) with
  | some keyword =>
      ⟨true, some "COMPLAINT_SMS", "Matched complaint keyword: \"" ++ keyword ++ "\""⟩
  | none =>
  match TRIGGER_KEYWORDS_summary.find? (fun k => jsIncludes transcriptLower k) with
  | some keyword =>
      ⟨true, some "CALL_SUMMARY_SMS", "Matched summary request keyword: \"" ++ keyword ++ "\""⟩
  | none =>
  match callType with
  | .jstr "OUTBOUND" =>
      ⟨true, some "OUTBOUND_CONFIRMATION_SMS", "Outbound call completed"⟩
  | _ =>
      ⟨false, none, "No trigger keywords matched"⟩

-- ===========================================================================
-- JSON serialization and JS string coercion
-- ===========================================================================

/-- Escape one character as `JSON.stringify` does for the characters that
occur in the payloads modelled here. -/
def escapeJsonChar (c : Char) : String :=
  if c == '"' then "\\\""
  else if c == '\\' then "\\\\"
  else if c == '\n' then "\\n"
  else if c == '\t' then "\\t"
  else if c == '\r' then "\\r"
  else String.mk [c]

/-- Escape a string for inclusion in JSON output. -/
def escapeJson (s : String) : String :=
  String.join (s.data.map escapeJsonChar)

mutual

/-- `JSON.stringify` on a parsed-JSON value (compact form, as in Node). -/
def stringify : JVal → String
  | .jnull => "null"
  | .jbool b => if b then "true" else "false"
  | .jnum n => toString n
  | .jstr s => "\"" ++ escapeJson s ++ "\""
  | .jarr xs => "[" ++ stringifyItems xs ++ "]"
  | .jobj fs => "\x7b" ++ stringifyFields fs ++ "\x7d"

/-- Comma-joined serialization of array items. -/
def stringifyItems : List JVal → String
  | [] => ""
  | [v] => stringify v
  | v :: rest => stringify v ++ "," ++ stringifyItems rest

/-- Comma-joined serialization of object fields. -/
def stringifyFields : List (String × JVal) → String
  | [] => ""
  | [(k, v)] => "\"" ++ escapeJson k ++ "\":" ++ stringify v
  | (k, v) :: rest => "\"" ++ escapeJson k ++ "\":" ++ stringify v ++ "," ++ stringifyFields rest

end

mutual

/-- JavaScript `String()` coercion of a parsed-JSON value. -/
def jsToString : JVal → String
  | .jnull => "null"
  | .jbool b => if b then "true" else "false"
  | .jnum n => toString n
  | .jstr s => s
  | .jarr xs => joinCommaJS xs
  | .jobj _ => "[object Object]"

/-- `Array.prototype.toString`: comma-joined elements, with `null` rendered
as the empty string. -/
def joinCommaJS : List JVal → String
  | [] => ""
  | [.jnull] => ""
  | [v] => jsToString v
  | .jnull :: rest => "," ++ joinCommaJS rest
  | v :: rest => jsToString v ++ "," ++ joinCommaJS rest

end

/-- `obj.key` restricted to truthy results, as used by the
`if (data.text) return data.text;` probes. -/
def truthyField (fs : List (String × JVal)) (key : String) : Option JVal :=
  match lookupField fs key with
  | some v => if jsTruthy v then some v else none
  | none => none

-- ===========================================================================
-- TRANSCRIPT TEXT EXTRACTION (call-ended.js lines 418-454)
-- ===========================================================================

/-- The `data.map(item => ...)` callback of `extractTranscriptText`.
Property access on `null` items throws a TypeError in JavaScript, modelled
by `Except.error`; the `item.role && item.message` line of the source is
unreachable (a truthy `item.message` already returned two lines earlier)
and therefore has no corresponding arm. -/
def extractItemText : JVal → Except String JVal
  | .jstr s => .ok (.jstr s)
  | .jnull => .error "Cannot read properties of null (reading 'text')"
  | .jobj fs =>
      match truthyField fs "text" with
      | some v => .ok v
      | none =>
      match truthyField fs "content" with
      | some v => .ok v
      | none =>
      match truthyField fs "message" with
      | some v => .ok v
      | none =>
      match truthyField fs "transcript" with
      | some v => .ok v
      | none => .ok (.jstr (stringify (.jobj fs)))
  | v => .ok (.jstr (stringify v))

/-- `data.map(...).join(' ')`: each mapped value is string-coerced and the
results are joined with single spaces; the first thrown error aborts. -/
def extractItemsText : List JVal → Except String String
  | [] => .ok ""
  | [v] => (extractItemText v).map (fun x => jsToString x)
  | v :: rest => do
      let x ← extractItemText v
      let r ← extractItemsText rest
      .ok (jsToString x ++ " " ++ r)

mutual

/-- `extractTranscriptText(data)` (lines 418-441).  Falsy input yields the
empty string; strings are returned as-is; arrays are flattened item-wise;
objects are probed for `text`, `content`, `full_transcript`, then a truthy
`messages` field is flattened recursively, else the object is serialized.
Non-zero numbers and `true` fall through to `String(data)`. -/
def extractTranscriptText : JVal → Except String JVal
  | .jnull => .ok (.jstr "")
  | .jbool b => .ok (.jstr (if b then "true" else ""))
  | .jnum n => .ok (.jstr (if n == 0 then "" else toString n))
  | .jstr s => .ok (.jstr s)
  | .jarr items => (extractItemsText items).map (fun parts => .jstr parts)
  | .jobj fs =>
      match truthyField fs "text" with
      | some v => .ok v
      | none =>
      match truthyField fs "content" with
      | some v => .ok v
      | none =>
      match truthyField fs "full_transcript" with
      | some v => .ok v
      | none => extractMessagesText fs fs

/-- Helper realizing `if (data.messages) return extractTranscriptText(data.messages)`:
scan the (duplicate-free) field list for a truthy `messages` field and
recurse into it, else serialize the whole object. -/
def extractMessagesText (orig : List (String × JVal)) : List (String × JVal) → Except String JVal
  | [] => .ok (.jstr (stringify (.jobj orig)))
  | (k, v) :: rest =>
      if k == "messages" && jsTruthy v then extractTranscriptText v
      else extractMessagesText orig rest

end

/-- One probe of the transcript `||` chain (lines 444-451): property access
(`none` plays `undefined`) followed by `extractTranscriptText`. -/
def transcriptProbe (v : Option JVal) : Except String JVal :=
  match v with
  | none => .ok (.jstr "")
  | some w => extractTranscriptText w

/-- `a || b` over probe results: a thrown error propagates, a truthy value
short-circuits past the remaining probes. -/
def orTruthy (a b : Except String JVal) : Except String JVal :=
  match a with
  | .error e => .error e
  | .ok v => if jsTruthy v then .ok v else b

/-- The transcript probe chain (lines 444-454) ending in
`transcript = String(transcript || '')`. -/
def transcriptChainE (body : JVal) : Except String String :=
  match orTruthy (transcriptProbe (jget body "transcript"))
        (orTruthy (transcriptProbe (jget body "transcription"))
        (orTruthy (transcriptProbe (jget body "conversation"))
        (orTruthy (transcriptProbe (jget body "messages"))
        (orTruthy (transcriptProbe (jget2 body "data" "transcript"))
        (orTruthy (transcriptProbe (jget2 body "analysis" "transcript"))
                  (transcriptProbe (jget2 body "call" "transcript"))))))) with
  | .error e => .error e
  | .ok v => .ok (jsToString (if jsTruthy v then v else .jstr ""))

/-- Lines 467-476: if the extracted transcript is empty, fall back to the
serialized payload, but only when that serialization is longer than 100
characters; otherwise the transcript stays empty. -/
def transcriptUsedE (body : JVal) : Except String String :=
  match transcriptChainE body with
  | .error e => .error e
  | .ok t =>
      if t == "" then
        (let payloadStr := stringify body
         if payloadStr.length > 100 then .ok payloadStr else .ok t)
      else .ok t

-- ===========================================================================
-- FIELD PROBES AND PHONE EXTRACTION (call-ended.js lines 347-412, 478-508)
-- ===========================================================================

/-- First truthy value in a chain of `||` probes. -/
def firstTruthy : List (Option JVal) → Option JVal
  | [] => none
  | some v :: rest => if jsTruthy v then some v else firstTruthy rest
  | none :: rest => firstTruthy rest

/-- Call-type extraction (lines 350-352). -/
def extractCallType (body : JVal) : JVal :=
  match firstTruthy
      [ jget body "call_type", jget body "callType", jget body "type",
        jget body "direction", jget2 body "metadata" "call_type",
        jget2 body "data" "call_type", jget2 body "call" "type",
        jget2 body "call" "direction" ] with
  | some v => v
  | none => .jstr "UNKNOWN"

/-- The characters matched by the `\s` class of the source regexes (the rare
unicode space characters also in `\s` do not occur in phone fields). -/
def jsWhitespace (c : Char) : Bool :=
  c == ' ' || c == '\t' || c == '\n' || c == '\r' || c == '\x0b' || c == '\x0c'

/-- The collection regex of line 385: an optional leading `+` followed by
10 to 20 characters, each a digit, whitespace or hyphen. -/
def matchPhonePattern (s : String) : Bool :=
  let cs := match s.data with
            | '+' :: rest => rest
            | cs => cs
  decide (10 ≤ cs.length) && decide (cs.length ≤ 20) &&
    cs.all (fun c => c.isDigit || jsWhitespace c || c == '-')

/-- The fallback regex of line 484: an optional leading `+` followed by
10 to 15 digits (no whitespace or hyphens). -/
def phone15Pattern (s : String) : Bool :=
  let cs := match s.data with
            | '+' :: rest => rest
            | cs => cs
  decide (10 ≤ cs.length) && decide (cs.length ≤ 15) && cs.all (fun c => c.isDigit)

/-- `value.replace(/[\s\-]/g, '')` (line 386). -/
def normalizePhoneValue (s : String) : String :=
  String.mk (s.data.filter (fun c => !(jsWhitespace c || c == '-')))

/-- `value.replace(/\+/g, '')` (line 399). -/
def removePlus (s : String) : String :=
  String.mk (s.data.filter (fun c => !(c == '+')))

/-- `value.replace(/[\+\s\-]/g, '')` (lines 400, 527-528). -/
def stripPhoneChars (s : String) : String :=
  String.mk (s.data.filter (fun c => !(c == '+' || jsWhitespace c || c == '-')))

/-- An entry of `allPhones` (line 387). -/
structure PhoneCand where
  path : String
  value : String
  original : String
deriving Repr, DecidableEq

mutual

/-- `collectPhones(obj, path)` (lines 379-393): walk the nested structure
(objects and arrays, whose `Object.entries` are index-keyed) and collect
every string matching the phone pattern, normalized. -/
def collectPhones : JVal → String → List PhoneCand
  | .jobj fs, path => collectPhonesFields fs path
  | .jarr xs, path => collectPhonesItems xs 0 path
  | _, _ => []

/-- `collectPhones` iteration over object entries. -/
def collectPhonesFields : List (String × JVal) → String → List PhoneCand
  | [], _ => []
  | (k, v) :: rest, path =>
      (let currentPath := if path == "" then k else path ++ "." ++ k
       match v with
       | .jstr s =>
           if matchPhonePattern s then [⟨currentPath, normalizePhoneValue s, s⟩] else []
       | .jobj gs => collectPhones (.jobj gs) currentPath
       | .jarr xs => collectPhones (.jarr xs) currentPath
       | _ => []) ++ collectPhonesFields rest path

/-- `collectPhones` iteration over array entries (keys are indices). -/
def collectPhonesItems : List JVal → Nat → String → List PhoneCand
  | [], _, _ => []
  | v :: rest, i, path =>
      (let currentPath := if path == "" then toString i else path ++ "." ++ toString i
       match v with
       | .jstr s =>
           if matchPhonePattern s then [⟨currentPath, normalizePhoneValue s, s⟩] else []
       | .jobj gs => collectPhones (.jobj gs) currentPath
       | .jarr xs => collectPhones (.jarr xs) currentPath
       | _ => []) ++ collectPhonesItems rest (i + 1) path

end

/-- The hardcoded agent number (line 359). -/
def elevenLabsNumber : String := "+15856678990"

/-- `collectPhones(body)` from the top of the payload (line 394). -/
def allPhonesOf (body : JVal) : List PhoneCand :=
  collectPhones body ""

/-- The `customerPhones` filter (lines 398-402): drop every candidate whose
digits (after removing `+`) contain the agent digit sequence or equal the
normalized agent number. -/
def customerPhonesOf (body : JVal) : List PhoneCand :=
  (allPhonesOf body).filter (fun p =>
    let num := removePlus p.value
    let agentNum := stripPhoneChars elevenLabsNumber
    !(jsIncludes num "15856678990") && !(num == agentNum))

/-- The selection of line 406: first surviving candidate, or the empty
string. -/
def primaryPhoneOf (body : JVal) : String :=
  match customerPhonesOf body with
  | [] => ""
  | p :: _ => p.value

mutual

/-- `findPhone(obj, depth)` (lines 481-494): depth-bounded scan for the
first string matching the strict 10-15 digit pattern.  Recursion into
`null` values (which `typeof` calls objects) immediately returns `null`,
so those entries are simply skipped. -/
def findPhone : JVal → Nat → Option String
  | v, depth =>
      if depth > 3 then none
      else match v with
        | .jobj fs => findPhoneFields fs depth
        | .jarr xs => findPhoneItems xs depth
        | _ => none

/-- `findPhone` iteration over object entries. -/
def findPhoneFields : List (String × JVal) → Nat → Option String
  | [], _ => none
  | (_, v) :: rest, depth =>
      match v with
      | .jstr s => if phone15Pattern s then some s else findPhoneFields rest depth
      | .jobj gs =>
          (match findPhone (.jobj gs) (depth + 1) with
           | some f => some f
           | none => findPhoneFields rest depth)
      | .jarr xs =>
          (match findPhone (.jarr xs) (depth + 1) with
           | some f => some f
           | none => findPhoneFields rest depth)
      | _ => findPhoneFields rest depth

/-- `findPhone` iteration over array entries. -/
def findPhoneItems : List JVal → Nat → Option String
  | [], _ => none
  | v :: rest, depth =>
      match v with
      | .jstr s => if phone15Pattern s then some s else findPhoneItems rest depth
      | .jobj gs =>
          (match findPhone (.jobj gs) (depth + 1) with
           | some f => some f
           | none => findPhoneItems rest depth)
      | .jarr xs =>
          (match findPhone (.jarr xs) (depth + 1) with
           | some f => some f
           | none => findPhoneItems rest depth)
      | _ => findPhoneItems rest depth

end

mutual

/-- The strings visited by `findPhone`, in traversal order with the same
depth bound; used to state that `findPhone` returns the first match in
traversal order. -/
def scanStrings : JVal → Nat → List String
  | v, depth =>
      if depth > 3 then []
      else match v with
        | .jobj fs => scanStringsFields fs depth
        | .jarr xs => scanStringsItems xs depth
        | _ => []

/-- `scanStrings` iteration over object entries. -/
def scanStringsFields : List (String × JVal) → Nat → List String
  | [], _ => []
  | (_, v) :: rest, depth =>
      (match v with
       | .jstr s => [s]
       | .jobj gs => scanStrings (.jobj gs) (depth + 1)
       | .jarr xs => scanStrings (.jarr xs) (depth + 1)
       | _ => []) ++ scanStringsFields rest depth

/-- `scanStrings` iteration over array entries. -/
def scanStringsItems : List JVal → Nat → List String
  | [], _ => []
  | v :: rest, depth =>
      (match v with
       | .jstr s => [s]
       | .jobj gs => scanStrings (.jobj gs) (depth + 1)
       | .jarr xs => scanStrings (.jarr xs) (depth + 1)
       | _ => []) ++ scanStringsItems rest depth

end

/-- Phone resolution inside the handler: the primary selection of line 406,
or, only when that is empty, the `findPhone` fallback of lines 478-508;
`none` means the no-phone short-circuit response is taken. -/
def resolvedPhone (body : JVal) : Option String :=
  if primaryPhoneOf body == "" then findPhone body 0
  else some (primaryPhoneOf body)

/-- `Object.keys` for the payload shapes reachable here (strings expose
their indices, as in JavaScript). -/
def keysOf : JVal → List String
  | .jobj fs => fs.map (fun p => p.1)
  | .jarr xs => (List.range xs.length).map toString
  | .jstr s => (List.range s.length).map toString
  | _ => []

-- ===========================================================================
-- TWILIO SMS SENDER (call-ended.js lines 269-314)
-- ===========================================================================

/-- The relevant process environment: Twilio credentials and sending number;
the empty string models an unset variable (both are falsy in the source). -/
structure Env where
  accountSid : String
  authToken : String
  fromNumber : String
deriving Repr, DecidableEq

/-- Outcome of the single external `client.messages.create` call, supplied
as an oracle: a message SID on success, the thrown error message on
failure. -/
inductive TwilioOutcome where
  | ok (sid : String)
  | err (msg : String)
deriving Repr, DecidableEq

/-- Return shape of `sendSMS`. -/
structure SmsResult where
  success : Bool
  messageId : Option String
  error : Option String
deriving Repr, DecidableEq

/-- `sendSMS(toNumber, smsType)`; the second component lists the gateway
send attempts (`client.messages.create` calls) made, as `(to, smsType)`
pairs. -/
def sendSMS (env : Env) (tw : TwilioOutcome) (toNumber smsType : String) :
    SmsResult × List (String × String) :=
  if env.accountSid == "" || env.authToken == "" || env.fromNumber == "" then
    (⟨false, none, some "Missing Twilio credentials"⟩, [])
  else
    match SMS_TEMPLATES.find? (fun p => p.1 == smsType) with
    | none => (⟨false, none, some ("Unknown SMS type: " ++ smsType)⟩, [])
    | some tpl =>
        if tpl.2 == "" then (⟨false, none, some ("Unknown SMS type: " ++ smsType)⟩, [])
        else
          match tw with
          | .ok sid => (⟨true, some sid, none⟩, [(toNumber, smsType)])
          | .err m => (⟨false, none, some m⟩, [(toNumber, smsType)])

-- ===========================================================================
-- WEBHOOK HANDLER (call-ended.js lines 320-579)
-- ===========================================================================

/-- The catch-all response body (lines 573-577). -/
def catchBody (m : String) : JVal :=
  .jobj [("received", .jbool true), ("sms_sent", .jbool false), ("error", .jstr m)]

/-- The no-phone short-circuit body (lines 501-506). -/
def noPhoneBody (body : JVal) : JVal :=
  .jobj [("received", .jbool true), ("sms_sent", .jbool false),
         ("reason", .jstr "No phone number found in webhook payload"),
         ("payload_keys", .jarr ((keysOf body).map (fun k => .jstr k)))]

/-- The classifier-suppressed body (lines 518-522). -/
def notSendBody (reason : String) : JVal :=
  .jobj [("received", .jbool true), ("sms_sent", .jbool false), ("reason", .jstr reason)]

/-- The agent-number refusal body (lines 535-544). -/
def agentMatchBody (phone fromNumber : String) (body : JVal) : JVal :=
  .jobj [("received", .jbool true), ("sms_sent", .jbool false),
         ("reason", .jstr "Customer phone not found in webhook - matches agent phone"),
         ("debug", .jobj [("extracted_phone", .jstr phone),
                          ("twilio_from", .jstr fromNumber),
                          ("payload_keys", .jarr ((keysOf body).map (fun k => .jstr k)))])]

/-- The successful-dispatch body (lines 553-559). -/
def smsSuccessBody (smsType messageId reason : String) : JVal :=
  .jobj [("received", .jbool true), ("sms_sent", .jbool true),
         ("sms_type", .jstr smsType), ("message_id", .jstr messageId),
         ("reason", .jstr reason)]

/-- The failed-dispatch body (lines 562-567). -/
def smsFailureBody (smsError reason : String) : JVal :=
  .jobj [("received", .jbool true), ("sms_sent", .jbool false),
         ("sms_error", .jstr smsError), ("reason", .jstr reason)]

/-- Lines 525-568: normalize destination and sending number, refuse when
they coincide or the destination contains the agent digits, otherwise
dispatch.  Returns the response body, whether `sendSMS` was invoked, and
the gateway send attempts. -/
def dispatchStep (env : Env) (tw : TwilioOutcome) (body : JVal) (phone : String)
    (cls : Classification) : JVal × Bool × List (String × String) :=
  let fromNumber := env.fromNumber
  let normalizedTo := stripPhoneChars phone
  let normalizedFrom := stripPhoneChars fromNumber
  if normalizedTo == normalizedFrom || jsIncludes normalizedTo "15856678990" then
    (agentMatchBody phone fromNumber body, false, [])
  else
    let r := sendSMS env tw phone (cls.smsType.getD "")
    if r.1.success then
      (smsSuccessBody (cls.smsType.getD "") ((r.1.messageId).getD "") cls.reason, true, r.2)
    else
      (smsFailureBody ((r.1.error).getD "") cls.reason, true, r.2)

/-- Result of one handler invocation: HTTP status, JSON body (`none` for the
body-less `res.end()` of the OPTIONS branch), whether `classifyTranscript`
ran, whether `sendSMS` ran, and the gateway send attempts. -/
structure HandlerResult where
  status : Nat
  rbody : Option JVal
  classifierCalled : Bool
  dispatcherInvoked : Bool
  gatewayCalls : List (String × String)

/-- `const body = req.body || {}` (line 347). -/
def normalizeBody (rawBody : JVal) : JVal :=
  if jsTruthy rawBody then rawBody else .jobj []

/-- The exported handler (lines 320-579).  `exc` injects an internal
exception thrown inside the `try` block (caught at line 570); the Twilio
call outcome is the `tw` oracle. -/
def webhookHandler (method : String) (rawBody : JVal) (env : Env)
    (tw : TwilioOutcome) (exc : Option String) : HandlerResult :=
  if method == "OPTIONS" then ⟨200, none, false, false, []⟩
  else if !(method == "POST") then
    ⟨405, some (.jobj [("error", .jstr "Method not allowed")]), false, false, []⟩
  else
    match exc with
    | some m => ⟨200, some (catchBody m), false, false, []⟩
    | none =>
      let body := normalizeBody rawBody
      let callType := extractCallType body
      match transcriptUsedE body with
      | .error m => ⟨200, some (catchBody m), false, false, []⟩
      | .ok transcript =>
        match resolvedPhone body with
        | none => ⟨200, some (noPhoneBody body), false, false, []⟩
        | some phone =>
          let ct := if jsTruthy callType then callType else .jstr "INBOUND"
          let cls := classifyTranscript transcript ct
          if !cls.shouldSend then
            ⟨200, some (notSendBody cls.reason), true, false, []⟩
          else
            let step := dispatchStep env tw body phone cls
            ⟨200, some step.1, true, step.2.1, step.2.2⟩

-- ===========================================================================
-- Concrete payloads and environments used by the closed theorems
-- ===========================================================================

/-- A structured acknowledgment body: `received: true`, together with either
`sms_sent: true`, or `sms_sent: false` accompanied by an `error` or `reason`
field. -/
def goodBody (b : JVal) : Prop :=
  jget b "received" = some (.jbool true) ∧
  (jget b "sms_sent" = some (.jbool true) ∨
   (jget b "sms_sent" = some (.jbool false) ∧
    ((jget b "error").isSome = true ∨ (jget b "reason").isSome = true)))

/-- A fully configured environment for concrete runs. -/
def envStd : Env := ⟨"AC_TEST", "AUTH_TEST", "+10000000000"⟩

/-- Payload with no phone anywhere whose transcript array contains a JSON
`null`, making the extractor throw. -/
def c5body : JVal := .jobj [("transcript", .jarr [.jnull])]

/-- Payload with no phone, no transcript and no throwing entry. -/
def c5wBody : JVal := .jobj [("event", .jstr "call ended")]

/-- Payload whose transcript probes are all empty, whose serialization is at
most 100 characters long and contains a trigger keyword. -/
def c6body : JVal := .jobj [("to", .jstr "0501234567"), ("note", .jstr "send t&c")]

/-- Payload whose transcript probes are all empty and whose serialization
exceeds 100 characters. -/
def c6wBody : JVal := .jobj [("note", .jstr "xxxxxxxxxxxxxxxxxxxxxxxxxxxxxxxxxxxxxxxxxxxxxxxxxxxxxxxxxxxxxxxxxxxxxxxxxxxxxxxxxxxxxxxxxxxxxxxxxxxxxxxxxxxxxxxxxxxxxx")]

/-- Payload whose only phone-shaped string is a 16-digit run containing the
agent digit sequence: the primary pass filters it, and it is too long for
the fallback regex. -/
def c7body : JVal := .jobj [("phone", .jstr "1585667899012345")]

/-- Payload with an ordinary customer phone at a nested-free position. -/
def c7wBody : JVal := .jobj [("customer", .jstr "+971501234567")]

/-- Payload with a 13-digit number distinct from the agent number but
containing its digit sequence, next to a genuine customer phone. -/
def c9wBody : JVal := .jobj [("a", .jstr "+5815856678990"), ("customer_phone", .jstr "0501234567")]

-- ===========================================================================
-- Helper lemmas
-- ===========================================================================

theorem goodBody_catch (m : String) : goodBody (catchBody m) :=
  ⟨rfl, Or.inr ⟨rfl, Or.inl rfl⟩⟩

theorem goodBody_noPhone (body : JVal) : goodBody (noPhoneBody body) :=
  ⟨rfl, Or.inr ⟨rfl, Or.inr rfl⟩⟩

theorem goodBody_notSend (r : String) : goodBody (notSendBody r) :=
  ⟨rfl, Or.inr ⟨rfl, Or.inr rfl⟩⟩

theorem goodBody_agent (p f : String) (b : JVal) : goodBody (agentMatchBody p f b) :=
  ⟨rfl, Or.inr ⟨rfl, Or.inr rfl⟩⟩

theorem goodBody_success (t mid r : String) : goodBody (smsSuccessBody t mid r) :=
  ⟨rfl, Or.inl rfl⟩

theorem goodBody_failure (e r : String) : goodBody (smsFailureBody e r) :=
  ⟨rfl, Or.inr ⟨rfl, Or.inr rfl⟩⟩

theorem goodBody_dispatch (env : Env) (tw : TwilioOutcome) (body : JVal)
    (phone : String) (cls : Classification) :
    goodBody (dispatchStep env tw body phone cls).1 := by
  simp only [dispatchStep]
  split
  · exact goodBody_agent _ _ _
  · split
    · exact goodBody_success _ _ _
    · exact goodBody_failure _ _

/-- Unfolding of the handler on a POST request without injected exception. -/
theorem webhookHandler_post_eq (rawBody : JVal) (env : Env) (tw : TwilioOutcome) :
    webhookHandler "POST" rawBody env tw none =
      (match transcriptUsedE (normalizeBody rawBody) with
       | .error m => ⟨200, some (catchBody m), false, false, []⟩
       | .ok transcript =>
         match resolvedPhone (normalizeBody rawBody) with
         | none => ⟨200, some (noPhoneBody (normalizeBody rawBody)), false, false, []⟩
         | some phone =>
           if !(classifyTranscript transcript
                 (if jsTruthy (extractCallType (normalizeBody rawBody))
                  then extractCallType (normalizeBody rawBody) else .jstr "INBOUND")).shouldSend then
             ⟨200, some (notSendBody (classifyTranscript transcript
                 (if jsTruthy (extractCallType (normalizeBody rawBody))
                  then extractCallType (normalizeBody rawBody) else .jstr "INBOUND")).reason), true, false, []⟩
           else
             ⟨200, some (dispatchStep env tw (normalizeBody rawBody) phone
                 (classifyTranscript transcript
                   (if jsTruthy (extractCallType (normalizeBody rawBody))
                    then extractCallType (normalizeBody rawBody) else .jstr "INBOUND"))).1, true,
               (dispatchStep env tw (normalizeBody rawBody) phone
                 (classifyTranscript transcript
                   (if jsTruthy (extractCallType (normalizeBody rawBody))
                    then extractCallType (normalizeBody rawBody) else .jstr "INBOUND"))).2.1,
               (dispatchStep env tw (normalizeBody rawBody) phone
                 (classifyTranscript transcript
                   (if jsTruthy (extractCallType (normalizeBody rawBody))
                    then extractCallType (normalizeBody rawBody) else .jstr "INBOUND"))).2.2⟩) := rfl

/-- Every surviving candidate of the `customerPhones` filter is free of the
agent digit sequence. -/
theorem customerPhones_all_safe (body : JVal) :
    ((customerPhonesOf body).all
      (fun p => !(jsIncludes (removePlus p.value) "15856678990"))) = true := by
  rw [List.all_eq_true]
  intro p hp
  rw [customerPhonesOf, List.mem_filter] at hp
  have h2 := hp.2
  simp only [Bool.and_eq_true] at h2
  exact h2.1

/-- `sendSMS` attempts at most one gateway call, to the requested number. -/
theorem sendSMS_calls_cases (env : Env) (tw : TwilioOutcome) (toNumber smsType : String) :
    (sendSMS env tw toNumber smsType).2 = [] ∨
    (sendSMS env tw toNumber smsType).2 = [(toNumber, smsType)] := by
  simp only [sendSMS]
  split
  · exact Or.inl rfl
  · split
    · exact Or.inl rfl
    · split
      · exact Or.inl rfl
      · split <;> exact Or.inr rfl

/-- Every gateway call of `dispatchStep` passes the agent-number guard. -/
theorem dispatch_calls_safe (env : Env) (tw : TwilioOutcome) (body : JVal)
    (phone : String) (cls : Classification) :
    ((dispatchStep env tw body phone cls).2.2).all
      (fun c => !(stripPhoneChars c.1 == stripPhoneChars env.fromNumber) &&
                !(jsIncludes (stripPhoneChars c.1) "15856678990")) = true := by
  simp only [dispatchStep]
  split
  · rfl
  · next h =>
    simp only [Bool.or_eq_true, not_or, Bool.not_eq_true] at h
    rcases sendSMS_calls_cases env tw phone (cls.smsType.getD "") with hc | hc <;>
      split <;> simp [hc, h.1, h.2]

/-- Every gateway call of a POST run passes the agent-number guard. -/
theorem handler_calls_safe (rawBody : JVal) (env : Env) (tw : TwilioOutcome) (exc : Option String) :
    ((webhookHandler "POST" rawBody env tw exc).gatewayCalls).all
      (fun c => !(stripPhoneChars c.1 == stripPhoneChars env.fromNumber) &&
                !(jsIncludes (stripPhoneChars c.1) "15856678990")) = true := by
  cases exc with
  | some m => rfl
  | none =>
    rw [webhookHandler_post_eq]
    repeat' split
    all_goals first
      | rfl
      | exact dispatch_calls_safe _ _ _ _ _

theorem find?_append_match (p : α → Bool) (l1 l2 : List α) :
    (l1 ++ l2).find? p =
      (match l1.find? p with | some x => some x | none => l2.find? p) := by
  induction l1 with
  | nil => rfl
  | cons a l ih =>
      cases hp : p a
      · simp [List.find?, hp, ih]
      · simp [List.find?, hp]

mutual

/-- `findPhone` returns the first string matching the 10-15 digit pattern in
traversal order among the depth-bounded scan. -/
theorem findPhone_eq_scan : ∀ (v : JVal) (depth : Nat),
    findPhone v depth = (scanStrings v depth).find? phone15Pattern
  | v, depth => by
      unfold findPhone scanStrings
      by_cases hd : depth > 3
      · simp [hd]
      · simp only [hd, if_false]
        cases v with
        | jobj fs => exact findPhoneFields_eq_scan fs depth
        | jarr xs => exact findPhoneItems_eq_scan xs depth
        | jnull => rfl
        | jbool b => rfl
        | jnum n => rfl
        | jstr s => rfl

theorem findPhoneFields_eq_scan : ∀ (fs : List (String × JVal)) (depth : Nat),
    findPhoneFields fs depth = (scanStringsFields fs depth).find? phone15Pattern
  | [], _ => rfl
  | (k, v) :: rest, depth => by
      have hrest := findPhoneFields_eq_scan rest depth
      cases v with
      | jstr s =>
          have hstepL : findPhoneFields ((k, .jstr s) :: rest) depth =
              (if phone15Pattern s then some s else findPhoneFields rest depth) := rfl
          have hstepR : scanStringsFields ((k, .jstr s) :: rest) depth =
              [s] ++ scanStringsFields rest depth := rfl
          rw [hstepL, hstepR]
          cases hp : phone15Pattern s
          · simp [List.find?, hp, hrest]
          · simp [List.find?, hp]
      | jobj gs =>
          have hv := findPhone_eq_scan (.jobj gs) (depth + 1)
          have hstepL : findPhoneFields ((k, .jobj gs) :: rest) depth =
              (match findPhone (.jobj gs) (depth + 1) with
               | some f => some f
               | none => findPhoneFields rest depth) := rfl
          have hstepR : scanStringsFields ((k, .jobj gs) :: rest) depth =
              scanStrings (.jobj gs) (depth + 1) ++ scanStringsFields rest depth := rfl
          rw [hstepL, hstepR, find?_append_match, ← hv, ← hrest]
          cases findPhone (.jobj gs) (depth + 1) <;> rfl
      | jarr xs =>
          have hv := findPhone_eq_scan (.jarr xs) (depth + 1)
          have hstepL : findPhoneFields ((k, .jarr xs) :: rest) depth =
              (match findPhone (.jarr xs) (depth + 1) with
               | some f => some f
               | none => findPhoneFields rest depth) := rfl
          have hstepR : scanStringsFields ((k, .jarr xs) :: rest) depth =
              scanStrings (.jarr xs) (depth + 1) ++ scanStringsFields rest depth := rfl
          rw [hstepL, hstepR, find?_append_match, ← hv, ← hrest]
          cases findPhone (.jarr xs) (depth + 1) <;> rfl
      | jnull =>
          have hstepL : findPhoneFields ((k, .jnull) :: rest) depth =
              findPhoneFields rest depth := rfl
          have hstepR : scanStringsFields ((k, .jnull) :: rest) depth =
              [] ++ scanStringsFields rest depth := rfl
          rw [hstepL, hstepR]
          simpa using hrest
      | jbool b =>
          have hstepL : findPhoneFields ((k, .jbool b) :: rest) depth =
              findPhoneFields rest depth := rfl
          have hstepR : scanStringsFields ((k, .jbool b) :: rest) depth =
              [] ++ scanStringsFields rest depth := rfl
          rw [hstepL, hstepR]
          simpa using hrest
      | jnum n =>
          have hstepL : findPhoneFields ((k, .jnum n) :: rest) depth =
              findPhoneFields rest depth := rfl
          have hstepR : scanStringsFields ((k, .jnum n) :: rest) depth =
              [] ++ scanStringsFields rest depth := rfl
          rw [hstepL, hstepR]
          simpa using hrest

theorem findPhoneItems_eq_scan : ∀ (xs : List JVal) (depth : Nat),
    findPhoneItems xs depth = (scanStringsItems xs depth).find? phone15Pattern
  | [], _ => rfl
  | v :: rest, depth => by
      have hrest := findPhoneItems_eq_scan rest depth
      cases v with
      | jstr s =>
          have hstepL : findPhoneItems (.jstr s :: rest) depth =
              (if phone15Pattern s then some s else findPhoneItems rest depth) := rfl
          have hstepR : scanStringsItems (.jstr s :: rest) depth =
              [s] ++ scanStringsItems rest depth := rfl
          rw [hstepL, hstepR]
          cases hp : phone15Pattern s
          · simp [List.find?, hp, hrest]
          · simp [List.find?, hp]
      | jobj gs =>
          have hv := findPhone_eq_scan (.jobj gs) (depth + 1)
          have hstepL : findPhoneItems (.jobj gs :: rest) depth =
              (match findPhone (.jobj gs) (depth + 1) with
               | some f => some f
               | none => findPhoneItems rest depth) := rfl
          have hstepR : scanStringsItems (.jobj gs :: rest) depth =
              scanStrings (.jobj gs) (depth + 1) ++ scanStringsItems rest depth := rfl
          rw [hstepL, hstepR, find?_append_match, ← hv, ← hrest]
          cases findPhone (.jobj gs) (depth + 1) <;> rfl
      | jarr xs2 =>
          have hv := findPhone_eq_scan (.jarr xs2) (depth + 1)
          have hstepL : findPhoneItems (.jarr xs2 :: rest) depth =
              (match findPhone (.jarr xs2) (depth + 1) with
               | some f => some f
               | none => findPhoneItems rest depth) := rfl
          have hstepR : scanStringsItems (.jarr xs2 :: rest) depth =
              scanStrings (.jarr xs2) (depth + 1) ++ scanStringsItems rest depth := rfl
          rw [hstepL, hstepR, find?_append_match, ← hv, ← hrest]
          cases findPhone (.jarr xs2) (depth + 1) <;> rfl
      | jnull =>
          have hstepL : findPhoneItems (.jnull :: rest) depth =
              findPhoneItems rest depth := rfl
          have hstepR : scanStringsItems (.jnull :: rest) depth =
              [] ++ scanStringsItems rest depth := rfl
          rw [hstepL, hstepR]
          simpa using hrest
      | jbool b =>
          have hstepL : findPhoneItems (.jbool b :: rest) depth =
              findPhoneItems rest depth := rfl
          have hstepR : scanStringsItems (.jbool b :: rest) depth =
              [] ++ scanStringsItems rest depth := rfl
          rw [hstepL, hstepR]
          simpa using hrest
      | jnum n =>
          have hstepL : findPhoneItems (.jnum n :: rest) depth =
              findPhoneItems rest depth := rfl
          have hstepR : scanStringsItems (.jnum n :: rest) depth =
              [] ++ scanStringsItems rest depth := rfl
          rw [hstepL, hstepR]
          simpa using hrest

end

-- ===========================================================================
-- Claim theorems
-- ===========================================================================

/-- Claim C1: for every raw event delivered by POST to the webhook handler
(any payload, any environment, any gateway outcome, and optionally an
internal exception thrown mid-pipeline), the handler responds with HTTP
status 200 and a structured JSON body carrying `received: true`, and every
non-sending outcome additionally carries an `error` or `reason` field next
to `sms_sent: false`. -/
theorem claim_C1_handler_always_200 (rawBody : JVal) (env : Env) (tw : TwilioOutcome)
    (exc : Option String) :
    (webhookHandler "POST" rawBody env tw exc).status = 200 ∧
    ∃ b, (webhookHandler "POST" rawBody env tw exc).rbody = some b ∧ goodBody b := by
  cases exc with
  | some m => exact ⟨rfl, catchBody m, rfl, goodBody_catch m⟩
  | none =>
    rw [webhookHandler_post_eq]
    repeat' split
    all_goals first
      | exact ⟨rfl, _, rfl, goodBody_catch _⟩
      | exact ⟨rfl, _, rfl, goodBody_noPhone _⟩
      | exact ⟨rfl, _, rfl, goodBody_notSend _⟩
      | exact ⟨rfl, _, rfl, goodBody_dispatch _ _ _ _ _⟩

/-- Claim C2: whenever the lowercased transcript contains a block-rule
substring, `classifyTranscript` returns `shouldSend: false` with a null
template and a reason naming the (first matching) blocking substring,
for every call direction and regardless of any trigger keyword also
present: the block check runs before any trigger category. -/
theorem claim_C2_block_overrides (transcript : String) (callType : JVal) (b : String)
    (hb : b ∈ BLOCK_KEYWORDS)
    (hc : jsIncludes (lowerString transcript) b = true) :
    ∃ k, k ∈ BLOCK_KEYWORDS ∧ jsIncludes (lowerString transcript) k = true ∧
      classifyTranscript transcript callType =
        ⟨false, none, "Blocked: transcript contains \"" ++ k ++ "\""⟩ := by
  have hsome : (BLOCK_KEYWORDS.find? (fun k => jsIncludes (lowerString transcript) k)).isSome := by
    rw [List.find?_isSome]
    exact ⟨b, hb, hc⟩
  obtain ⟨k, hk⟩ := Option.isSome_iff_exists.mp hsome
  refine ⟨k, List.mem_of_find?_eq_some hk, List.find?_some hk, ?_⟩
  simp only [classifyTranscript, hk]

/-- Witness for claim C2 at a concrete blocked transcript that also contains
the trigger keyword `send t&c`. -/
theorem claim_C2_witness :
    ("unable to verify" ∈ BLOCK_KEYWORDS ∧
      jsIncludes (lowerString "We were unable to verify your identity, please send t&c") "unable to verify" = true) ∧
    (∃ k, k ∈ BLOCK_KEYWORDS ∧
      jsIncludes (lowerString "We were unable to verify your identity, please send t&c") k = true ∧
      classifyTranscript "We were unable to verify your identity, please send t&c" (.jstr "OUTBOUND") =
        ⟨false, none, "Blocked: transcript contains \"" ++ k ++ "\""⟩) :=
  ⟨⟨by decide, by decide⟩,
   claim_C2_block_overrides "We were unable to verify your identity, please send t&c" (.jstr "OUTBOUND")
     "unable to verify" (by decide) (by decide)⟩

/-- Claim C3: a transcript containing a trigger keyword of any category and
no block substring classifies as a send with that category template, never
the generic outbound confirmation, and identically for every direction
(the OUTBOUND fallback is only reached after all trigger categories). -/
theorem claim_C3_trigger_precedence (transcript : String) (callType : JVal)
    (hnb : ∀ b ∈ BLOCK_KEYWORDS, jsIncludes (lowerString transcript) b = false)
    (ht : ∃ k ∈ ALL_TRIGGER_KEYWORDS, jsIncludes (lowerString transcript) k = true) :
    (classifyTranscript transcript callType).shouldSend = true ∧
    (classifyTranscript transcript callType).smsType ≠ some "OUTBOUND_CONFIRMATION_SMS" ∧
    (classifyTranscript transcript callType).smsType.isSome = true ∧
    classifyTranscript transcript callType = classifyTranscript transcript (.jstr "INBOUND") := by
  have hb0 : BLOCK_KEYWORDS.find? (fun k => jsIncludes (lowerString transcript) k) = none :=
    List.find?_eq_none.mpr (fun x hx => by simp [hnb x hx])
  cases h1 : TRIGGER_KEYWORDS_rewards_tnc.find? (fun k => jsIncludes (lowerString transcript) k) with
  | some k => simp [classifyTranscript, hb0, h1]
  | none =>
  cases h2 : TRIGGER_KEYWORDS_transaction_reference.find? (fun k => jsIncludes (lowerString transcript) k) with
  | some k => simp [classifyTranscript, hb0, h1, h2]
  | none =>
  cases h3 : TRIGGER_KEYWORDS_redemption.find? (fun k => jsIncludes (lowerString transcript) k) with
  | some k => simp [classifyTranscript, hb0, h1, h2, h3]
  | none =>
  cases h4 : TRIGGER_KEYWORDS_complaint.find? (fun k => jsIncludes (lowerString transcript) k) with
  | some k => simp [classifyTranscript, hb0, h1, h2, h3, h4]
  | none =>
  cases h5 : TRIGGER_KEYWORDS_summary.find? (fun k => jsIncludes (lowerString transcript) k) with
  | some k => simp [classifyTranscript, hb0, h1, h2, h3, h4, h5]
  | none =>
    exfalso
    obtain ⟨k, hk, hki⟩ := ht
    simp only [ALL_TRIGGER_KEYWORDS, List.mem_append] at hk
    rcases hk with ((((hk | hk) | hk) | hk) | hk)
    · exact absurd hki (by simpa using List.find?_eq_none.mp h1 k hk)
    · exact absurd hki (by simpa using List.find?_eq_none.mp h2 k hk)
    · exact absurd hki (by simpa using List.find?_eq_none.mp h3 k hk)
    · exact absurd hki (by simpa using List.find?_eq_none.mp h4 k hk)
    · exact absurd hki (by simpa using List.find?_eq_none.mp h5 k hk)

/-- Witness for claim C3 at a T&C request on an OUTBOUND call. -/
theorem claim_C3_witness :
    ((∀ b ∈ BLOCK_KEYWORDS, jsIncludes (lowerString "Sure, please send t&c for rewards") b = false) ∧
     (∃ k ∈ ALL_TRIGGER_KEYWORDS, jsIncludes (lowerString "Sure, please send t&c for rewards") k = true)) ∧
    ((classifyTranscript "Sure, please send t&c for rewards" (.jstr "OUTBOUND")).shouldSend = true ∧
     (classifyTranscript "Sure, please send t&c for rewards" (.jstr "OUTBOUND")).smsType ≠ some "OUTBOUND_CONFIRMATION_SMS" ∧
     (classifyTranscript "Sure, please send t&c for rewards" (.jstr "OUTBOUND")).smsType.isSome = true ∧
     classifyTranscript "Sure, please send t&c for rewards" (.jstr "OUTBOUND") =
       classifyTranscript "Sure, please send t&c for rewards" (.jstr "INBOUND")) :=
  ⟨⟨by decide, by decide⟩,
   claim_C3_trigger_precedence "Sure, please send t&c for rewards" (.jstr "OUTBOUND") (by decide) (by decide)⟩

/-- Claim C4: the system never dispatches an SMS to the gateway's own
number.  (1) Every gateway send attempt of every POST run targets a number
that neither normalizes to the configured sending number nor contains the
agent digit sequence; (2) extraction filters out every candidate whose
digits contain the agent sequence; (3) when the destination normalizes to
the same digits as the sending number the dispatch step refuses, invoking
nothing and returning the refusal body, which (4) reports
`sms_sent: false` and the customer-phone-not-resolved reason. -/
theorem claim_C4_never_dispatch_to_agent :
    (∀ (rawBody : JVal) (env : Env) (tw : TwilioOutcome) (exc : Option String),
      ((webhookHandler "POST" rawBody env tw exc).gatewayCalls).all
        (fun c => !(stripPhoneChars c.1 == stripPhoneChars env.fromNumber) &&
                  !(jsIncludes (stripPhoneChars c.1) "15856678990")) = true) ∧
    (∀ body : JVal, ((customerPhonesOf body).all
        (fun p => !(jsIncludes (removePlus p.value) "15856678990"))) = true) ∧
    (∀ (env : Env) (tw : TwilioOutcome) (body : JVal) (phone : String) (cls : Classification),
      stripPhoneChars phone = stripPhoneChars env.fromNumber →
      dispatchStep env tw body phone cls = (agentMatchBody phone env.fromNumber body, false, [])) ∧
    (∀ (phone fromNumber : String) (body : JVal),
      jget (agentMatchBody phone fromNumber body) "sms_sent" = some (.jbool false) ∧
      jget (agentMatchBody phone fromNumber body) "reason" =
        some (.jstr "Customer phone not found in webhook - matches agent phone")) := by
  refine ⟨handler_calls_safe, customerPhones_all_safe, ?_, fun p f b => ⟨rfl, rfl⟩⟩
  intro env tw body phone cls h
  simp only [dispatchStep, h, beq_self_eq_true, Bool.true_or, if_true]

/-- Witness for claim C4: a destination that normalizes to the configured
sending number is refused without any gateway call. -/
theorem claim_C4_witness :
    (stripPhoneChars "1 585 667 8990" =
      stripPhoneChars (Env.mk "AC_TEST" "AUTH_TEST" "+1 585 667 8990").fromNumber) ∧
    dispatchStep ⟨"AC_TEST", "AUTH_TEST", "+1 585 667 8990"⟩ (.ok "SM1") (.jobj [])
        "1 585 667 8990" ⟨true, some "REWARDS_TNC_SMS", "r"⟩ =
      (agentMatchBody "1 585 667 8990" "+1 585 667 8990" (.jobj []), false, []) :=
  ⟨by decide,
   claim_C4_never_dispatch_to_agent.2.2.1 ⟨"AC_TEST", "AUTH_TEST", "+1 585 667 8990"⟩ (.ok "SM1")
     (.jobj []) "1 585 667 8990" ⟨true, some "REWARDS_TNC_SMS", "r"⟩ (by decide)⟩

/-- Counterexample to claim C5 as stated: the payload `c5body` has no
phone-like value anywhere (both passes yield nothing), yet the handler
response is the caught TypeError body, whose `reason` field is absent, not
the no-phone-found reason: transcript extraction runs before the phone
check and can throw. -/
theorem claim_C5_counterexample :
    customerPhonesOf c5body = [] ∧ findPhone c5body 0 = none ∧
    webhookHandler "POST" c5body envStd (.ok "SM1") none =
      ⟨200, some (catchBody "Cannot read properties of null (reading 'text')"), false, false, []⟩ ∧
    jget (catchBody "Cannot read properties of null (reading 'text')") "reason" = none :=
  ⟨rfl, rfl, rfl, rfl⟩

/-- Claim C5 as amended: for every payload in which no phone-like value is
found by either pass and transcript extraction does not throw, the handler
short-circuits with 200, `received: true`, `sms_sent: false` and the
no-phone reason, invoking neither the classifier nor the dispatcher. -/
theorem claim_C5_no_phone_short_circuit (rawBody : JVal) (env : Env) (tw : TwilioOutcome)
    (hph : customerPhonesOf (normalizeBody rawBody) = [])
    (hfp : findPhone (normalizeBody rawBody) 0 = none)
    (hok : ∃ t, transcriptChainE (normalizeBody rawBody) = .ok t) :
    webhookHandler "POST" rawBody env tw none =
      ⟨200, some (noPhoneBody (normalizeBody rawBody)), false, false, []⟩ ∧
    jget (noPhoneBody (normalizeBody rawBody)) "received" = some (.jbool true) ∧
    jget (noPhoneBody (normalizeBody rawBody)) "sms_sent" = some (.jbool false) ∧
    jget (noPhoneBody (normalizeBody rawBody)) "reason" =
      some (.jstr "No phone number found in webhook payload") := by
  obtain ⟨t, ht⟩ := hok
  have hprim : primaryPhoneOf (normalizeBody rawBody) = "" := by
    rw [primaryPhoneOf, hph]
  have hres : resolvedPhone (normalizeBody rawBody) = none := by
    rw [resolvedPhone, hprim]
    simp [hfp]
  have htu : ∃ u, transcriptUsedE (normalizeBody rawBody) = .ok u := by
    have heq2 : transcriptUsedE (normalizeBody rawBody) =
        (if (t == "") = true then
          (if (stringify (normalizeBody rawBody)).length > 100
           then .ok (stringify (normalizeBody rawBody)) else .ok t)
         else .ok t) := by
      rw [transcriptUsedE, ht]
    rw [heq2]
    split
    · split
      · exact ⟨_, rfl⟩
      · exact ⟨_, rfl⟩
    · exact ⟨_, rfl⟩
  obtain ⟨u, hu⟩ := htu
  rw [webhookHandler_post_eq, hu, hres]
  exact ⟨rfl, rfl, rfl, rfl⟩

/-- Witness for the amended claim C5 at a phone-free, throw-free payload. -/
theorem claim_C5_witness :
    (customerPhonesOf (normalizeBody c5wBody) = [] ∧
     findPhone (normalizeBody c5wBody) 0 = none ∧
     (∃ t, transcriptChainE (normalizeBody c5wBody) = .ok t)) ∧
    webhookHandler "POST" c5wBody envStd (.ok "SM1") none =
      ⟨200, some (noPhoneBody (normalizeBody c5wBody)), false, false, []⟩ :=
  ⟨⟨rfl, rfl, ⟨"", rfl⟩⟩,
   (claim_C5_no_phone_short_circuit c5wBody envStd (.ok "SM1") rfl rfl ⟨"", rfl⟩).1⟩

/-- Counterexample to claim C6 as stated: on `c6body` every transcript probe
yields empty text, the serialization of the event even contains the trigger
keyword `send t&c`, yet the serialization is not used as the transcript
(it is at most 100 characters long), and the handler classifies against the
empty transcript, reporting no trigger match. -/
theorem claim_C6_counterexample :
    transcriptChainE c6body = .ok "" ∧
    jsIncludes (lowerString (stringify c6body)) "send t&c" = true ∧
    ((stringify c6body).length > 100) = False ∧
    transcriptUsedE c6body = .ok "" ∧
    webhookHandler "POST" c6body envStd (.ok "SM1") none =
      ⟨200, some (notSendBody "No trigger keywords matched"), true, false, []⟩ := by
  refine ⟨rfl, by decide, by decide, rfl, rfl⟩

/-- Claim C6 as amended: when every transcript probe yields empty text, the
handler falls back to the serialized event as transcript text only when
that serialization is longer than 100 characters; otherwise the transcript
stays empty. -/
theorem claim_C6_serialization_fallback (body : JVal)
    (h : transcriptChainE body = .ok "") :
    transcriptUsedE body =
      .ok (if (stringify body).length > 100 then stringify body else "") := by
  have heq2 : transcriptUsedE body =
      (if (("" : String) == "") = true then
        (if (stringify body).length > 100
         then .ok (stringify body) else .ok ("" : String))
       else .ok ("" : String)) := by
    rw [transcriptUsedE, h]
  rw [heq2]
  by_cases hl : (stringify body).length > 100 <;> simp [hl]

set_option maxRecDepth 4000 in
/-- Witness for the amended claim C6: a payload with a long serialization is
serialized into the transcript. -/
theorem claim_C6_witness :
    (transcriptChainE c6wBody = .ok "") ∧
    transcriptUsedE c6wBody =
      .ok (if (stringify c6wBody).length > 100 then stringify c6wBody else "") ∧
    transcriptUsedE c6wBody = .ok (stringify c6wBody) :=
  ⟨rfl, claim_C6_serialization_fallback c6wBody rfl, rfl⟩

/-- Counterexample to claim C7 as stated: the string `1585667899012345`
matches the claimed 10-20-digit fallback shape, the primary pass yields
nothing on `c7body`, yet the fallback pass collects nothing (its regex
accepts only 10-15 digits) and the handler reports no phone found. -/
theorem claim_C7_counterexample :
    matchPhonePattern "1585667899012345" = true ∧
    customerPhonesOf c7body = [] ∧
    findPhone c7body 0 = none ∧
    phone15Pattern "1585667899012345" = false ∧
    webhookHandler "POST" c7body envStd (.ok "SM1") none =
      ⟨200, some (noPhoneBody c7body), false, false, []⟩ :=
  ⟨rfl, rfl, rfl, rfl, rfl⟩

/-- Claim C7 as amended: the fallback pass, run only when the primary pass
yields nothing, scans the nested structure up to the depth bound and picks
the first string in traversal order matching an optional `+` followed by
10-15 digits (no internal spaces or hyphens, no normalization). -/
theorem claim_C7_fallback_pass :
    (∀ (v : JVal) (depth : Nat),
      findPhone v depth = (scanStrings v depth).find? phone15Pattern) ∧
    (∀ body : JVal, primaryPhoneOf body = "" → resolvedPhone body = findPhone body 0) ∧
    (∀ body : JVal, primaryPhoneOf body ≠ "" →
      resolvedPhone body = some (primaryPhoneOf body)) := by
  refine ⟨findPhone_eq_scan, ?_, ?_⟩
  · intro body h
    rw [resolvedPhone]
    simp [h]
  · intro body h
    rw [resolvedPhone]
    simp [h]

/-- Witness for the amended claim C7 at a payload with a primary-pass
phone. -/
theorem claim_C7_witness :
    (primaryPhoneOf c7wBody ≠ "") ∧
    resolvedPhone c7wBody = some (primaryPhoneOf c7wBody) ∧
    findPhone c7wBody 0 = (scanStrings c7wBody 0).find? phone15Pattern :=
  ⟨by decide, claim_C7_fallback_pass.2.2 c7wBody (by decide), claim_C7_fallback_pass.1 c7wBody 0⟩

/-- Claim C8: the transcript "Please send me the terms and conditions by
SMS" on an INBOUND call classifies as a send with the rewards
terms-and-conditions template. -/
theorem claim_C8_tnc_inbound_scenario :
    (classifyTranscript "Please send me the terms and conditions by SMS" (.jstr "INBOUND")).shouldSend = true ∧
    (classifyTranscript "Please send me the terms and conditions by SMS" (.jstr "INBOUND")).smsType =
      some "REWARDS_TNC_SMS" := by
  decide

/-- Claim C9: every candidate surviving the customer-phone filter is free of
the digit sequence 15856678990 (substring exclusion, not mere equality),
hence the selected customer phone, when non-empty, never contains it. -/
theorem claim_C9_agent_substring_filter (body : JVal) :
    ((customerPhonesOf body).all
      (fun p => !(jsIncludes (removePlus p.value) "15856678990"))) = true ∧
    (primaryPhoneOf body ≠ "" →
      jsIncludes (removePlus (primaryPhoneOf body)) "15856678990" = false) := by
  refine ⟨customerPhones_all_safe body, ?_⟩
  cases hc : customerPhonesOf body with
  | nil =>
      intro h
      rw [primaryPhoneOf, hc] at h
      exact absurd rfl h
  | cons p rest =>
      intro h
      have hall := customerPhones_all_safe body
      rw [hc, List.all_cons, Bool.and_eq_true] at hall
      rw [primaryPhoneOf, hc]
      simpa using hall.1

/-- Witness for claim C9: a 13-digit number distinct from the agent number
but containing its digits is filtered out, and the selected phone is the
genuine customer number. -/
theorem claim_C9_witness :
    (primaryPhoneOf c9wBody ≠ "") ∧ primaryPhoneOf c9wBody = "0501234567" ∧
    jsIncludes (removePlus "+5815856678990") "15856678990" = true ∧
    jsIncludes (removePlus (primaryPhoneOf c9wBody)) "15856678990" = false :=
  ⟨by decide, by decide, by decide, (claim_C9_agent_substring_filter c9wBody).2 (by decide)⟩

/-- Claim C10: the OUTBOUND fallback compares the direction with strict,
case-sensitive equality to the string OUTBOUND: with no block substring and
no trigger keyword, every other direction value (lowercase `outbound`
included) yields `shouldSend: false` with reason No trigger keywords
matched; and the handler's call-type extraction passes a non-empty
`call_type` string through verbatim without uppercasing. -/
theorem claim_C10_direction_case_sensitive (transcript : String) (callType : JVal)
    (hnb : ∀ b ∈ BLOCK_KEYWORDS, jsIncludes (lowerString transcript) b = false)
    (hnt : ∀ k ∈ ALL_TRIGGER_KEYWORDS, jsIncludes (lowerString transcript) k = false)
    (hct : callType ≠ .jstr "OUTBOUND") :
    classifyTranscript transcript callType = ⟨false, none, "No trigger keywords matched"⟩ ∧
    (∀ (body : JVal) (s : String), s ≠ "" → jget body "call_type" = some (.jstr s) →
      extractCallType body = .jstr s) := by
  constructor
  · have hb0 : BLOCK_KEYWORDS.find? (fun k => jsIncludes (lowerString transcript) k) = none :=
      List.find?_eq_none.mpr (fun x hx => by simp [hnb x hx])
    have htr : ∀ l : List String, (∀ k ∈ l, k ∈ ALL_TRIGGER_KEYWORDS) →
        l.find? (fun k => jsIncludes (lowerString transcript) k) = none := by
      intro l hl
      exact List.find?_eq_none.mpr (fun x hx => by simp [hnt x (hl x hx)])
    have h1 := htr TRIGGER_KEYWORDS_rewards_tnc (fun k hk => by simp [ALL_TRIGGER_KEYWORDS, List.mem_append, hk])
    have h2 := htr TRIGGER_KEYWORDS_transaction_reference (fun k hk => by simp [ALL_TRIGGER_KEYWORDS, List.mem_append, hk])
    have h3 := htr TRIGGER_KEYWORDS_redemption (fun k hk => by simp [ALL_TRIGGER_KEYWORDS, List.mem_append, hk])
    have h4 := htr TRIGGER_KEYWORDS_complaint (fun k hk => by simp [ALL_TRIGGER_KEYWORDS, List.mem_append, hk])
    have h5 := htr TRIGGER_KEYWORDS_summary (fun k hk => by simp [ALL_TRIGGER_KEYWORDS, List.mem_append, hk])
    simp only [classifyTranscript, hb0, h1, h2, h3, h4, h5]
  · intro body s hs h
    simp [extractCallType, firstTruthy, h, jsTruthy, hs]

/-- Witness for claim C10 at a neutral transcript with lowercase direction
`outbound`, passed verbatim from a payload `call_type` field. -/
theorem claim_C10_witness :
    ((∀ b ∈ BLOCK_KEYWORDS, jsIncludes (lowerString "Thank you, goodbye") b = false) ∧
     (∀ k ∈ ALL_TRIGGER_KEYWORDS, jsIncludes (lowerString "Thank you, goodbye") k = false) ∧
     JVal.jstr "outbound" ≠ JVal.jstr "OUTBOUND") ∧
    (classifyTranscript "Thank you, goodbye" (.jstr "outbound") =
      ⟨false, none, "No trigger keywords matched"⟩ ∧
     extractCallType (.jobj [("call_type", .jstr "outbound")]) = .jstr "outbound") :=
  ⟨⟨by decide, by decide, by simp⟩,
   (claim_C10_direction_case_sensitive "Thank you, goodbye" (.jstr "outbound") (by decide) (by decide) (by simp)).1,
   (claim_C10_direction_case_sensitive "Thank you, goodbye" (.jstr "outbound") (by decide) (by decide) (by simp)).2
     (.jobj [("call_type", .jstr "outbound")]) "outbound" (by simp) rfl⟩

end Mashreq
